import Mathlib

/-!
Verification of the Overstand geometry core.

This file is a shallow embedding of the geometry engine
(`src/geometry_engine.py`), of the angle-dimension builder
(`src/dimension_utils.py`) and of the SVG exporter
(`src/buildprimitives.py`), together with theorems settling the frozen
claims about them.

Modelling conventions:
* Python floats are modelled as real numbers (`ℝ`); functions that use
  only field arithmetic and comparisons (the Bézier bisection of
  `find_bezier_t_for_y`, the exporter's layer/style logic) are modelled
  over `ℚ`/`String` and stay computable.
* Python's `d.get(k) or default` idiom (missing OR falsy value replaced
  by the default) is modelled by `pyOr` on `Option` values; the distinct
  idiom `d.get(k, default)` (missing value only) is `Option.getD`.
* Python list indexing `xs[i]` is modelled by `List.getD xs i 0`;
  theorems about functions that index lists carry in-bounds hypotheses,
  mirroring the fact that the Python code would raise `IndexError`
  outside them.
* A Python function that can `raise` is modelled as returning
  `Except GeometryError _`, the error carrying the numeric values that
  the source embeds in the message string.
-/

open scoped Classical

/-- Python `x or d` coalescing for an optional float parameter: a missing
value (`none`) and a falsy value (`0`) are both replaced by the default. -/
noncomputable def pyOr (o : Option ℝ) (d : ℝ) : ℝ :=
  match o with
  | none => d
  | some v => if v = 0 then d else v

/-- Python `x or d` coalescing for an optional integer parameter. -/
def pyOrN (o : Option ℕ) (d : ℕ) : ℕ :=
  match o with
  | none => d
  | some v => if v = 0 then d else v

/-! ## SagittaMath: `calculate_sagitta` (geometry_engine.py lines 23–34) -/

/-- Embedding of `calculate_sagitta(radius, width)`: `0` for non-positive
inputs, the parabolic approximation `width² / (8·radius)` when
`half_width ≥ radius`, and the exact circular value otherwise. -/
noncomputable def calculate_sagitta (radius width : ℝ) : ℝ :=
  if radius ≤ 0 ∨ width ≤ 0 then 0
  else
    let half_width := width / 2
    if half_width ≥ radius then width ^ 2 / (8 * radius)
    else radius - Real.sqrt (radius ^ 2 - half_width ^ 2)

/-! ## BezierMath (geometry_engine.py lines 41–98)

These functions use only field arithmetic and comparisons, so they are
embedded over `ℚ` and remain computable. -/

/-- Embedding of `evaluate_cubic_bezier(p0, cp1, cp2, p3, t)`. -/
def evaluate_cubic_bezier (p0 cp1 cp2 p3 : ℚ × ℚ) (t : ℚ) : ℚ × ℚ :=
  let mt := 1 - t
  let mt2 := mt * mt
  let mt3 := mt2 * mt
  let t2 := t * t
  let t3 := t2 * t
  (mt3 * p0.1 + 3 * mt2 * t * cp1.1 + 3 * mt * t2 * cp2.1 + t3 * p3.1,
   mt3 * p0.2 + 3 * mt2 * t * cp1.2 + 3 * mt * t2 * cp2.2 + t3 * p3.2)

/-- The bisection loop of `find_bezier_t_for_y`, with the remaining
iteration count as explicit fuel (the source runs exactly 50 iterations
and then returns the interval midpoint). -/
def find_bezier_loop (p0 cp1 cp2 p3 : ℚ × ℚ) (target_y tolerance : ℚ) :
    ℕ → ℚ → ℚ → ℚ
  | 0, t_low, t_high => (t_low + t_high) / 2
  | n + 1, t_low, t_high =>
    let t_mid := (t_low + t_high) / 2
    let y_mid := (evaluate_cubic_bezier p0 cp1 cp2 p3 t_mid).2
    if |y_mid - target_y| < tolerance then t_mid
    else if y_mid < target_y then
      find_bezier_loop p0 cp1 cp2 p3 target_y tolerance n t_mid t_high
    else
      find_bezier_loop p0 cp1 cp2 p3 target_y tolerance n t_low t_mid

/-- Embedding of `find_bezier_t_for_y(p0, cp1, cp2, p3, target_y,
tolerance)`: bisection over `[0, 1]` with 50 iterations (the source's
default `tolerance=0.0001` is passed explicitly here). -/
def find_bezier_t_for_y (p0 cp1 cp2 p3 : ℚ × ℚ) (target_y tolerance : ℚ) : ℚ :=
  find_bezier_loop p0 cp1 cp2 p3 target_y tolerance 50 0 1

/-! ## StringAngleSolver: output shape and the body-stop-driven variant
(geometry_engine.py lines 222–253) -/

/-- Result shape shared by both string-angle solvers (the keys of the
Python result dict; `string_angle_to_fingerboard` is set to the same
value as `string_angle_to_fb` by the source). -/
structure StringAngles where
  body_stop : ℝ
  neck_stop : ℝ
  string_angle_to_ribs_rad : ℝ
  string_angle_to_fb : ℝ
  string_angle_to_ribs : ℝ
  string_angle_to_fingerboard : ℝ

/-- The parameter-bag fields read by `calculate_string_angles_violin`
(each read with the `params.get(k) or 0` idiom). -/
structure ViolinParams where
  body_stop : Option ℝ
  arching_height : Option ℝ
  bridge_height : Option ℝ
  overstand : Option ℝ
  string_height_nut : Option ℝ
  string_height_eof : Option ℝ
  fingerboard_length : Option ℝ

/-- Embedding of `calculate_string_angles_violin(params, vsl,
fb_thickness_at_join)` (violin/viol family, body-stop-driven). -/
noncomputable def calculate_string_angles_violin (p : ViolinParams)
    (vsl fb_thickness_at_join : ℝ) : StringAngles :=
  let body_stop := pyOr p.body_stop 0
  let arching_height := pyOr p.arching_height 0
  let bridge_height := pyOr p.bridge_height 0
  let overstand := pyOr p.overstand 0
  let string_height_nut := pyOr p.string_height_nut 0
  let string_height_eof := pyOr p.string_height_eof 0
  let fingerboard_length := pyOr p.fingerboard_length 0
  let string_height_at_join := (string_height_eof - string_height_nut)
    * ((vsl - body_stop) / fingerboard_length) + string_height_nut
  let opposite := arching_height + bridge_height - overstand
    - fb_thickness_at_join - string_height_at_join
  let string_angle_to_ribs_rad := Real.arctan (opposite / body_stop)
  let string_angle_to_ribs := string_angle_to_ribs_rad * 180 / Real.pi
  let string_to_join := Real.sqrt (opposite ^ 2 + body_stop ^ 2)
  let string_nut_to_join := vsl - string_to_join
  let neck_stop := Real.cos string_angle_to_ribs_rad * string_nut_to_join
  let opposite_string_to_fb := string_height_eof - string_height_nut
  let string_angle_to_fb :=
    Real.arctan (opposite_string_to_fb / fingerboard_length) * 180 / Real.pi
  ⟨body_stop, neck_stop, string_angle_to_ribs_rad, string_angle_to_fb,
    string_angle_to_ribs, string_angle_to_fb⟩

/-! ## `math.atan2` (used by `calculate_neck_geometry` and the
angle-dimension builder) -/

/-- Embedding of `math.atan2(y, x)` (C/IEEE convention, sign of the
zero argument ignored since reals have a single zero). -/
noncomputable def atan2 (y x : ℝ) : ℝ :=
  if 0 < x then Real.arctan (y / x)
  else if x < 0 then
    (if 0 ≤ y then Real.arctan (y / x) + Real.pi
     else Real.arctan (y / x) - Real.pi)
  else
    (if 0 < y then Real.pi / 2 else if y < 0 then -(Real.pi / 2) else 0)

/-! ## NeckGeometrySolver: `calculate_neck_geometry`
(geometry_engine.py lines 298–347) -/

/-- The parameter-bag fields read by `calculate_neck_geometry`; the
first four use `params.get(k) or 0`, while `body_stop` is read with
`params.get('body_stop', 0)` (missing-only default, no falsy
coalescing). -/
structure NeckParams where
  arching_height : Option ℝ
  bridge_height : Option ℝ
  overstand : Option ℝ
  string_height_nut : Option ℝ
  body_stop : Option ℝ

/-- The result dict of `calculate_neck_geometry`. -/
structure NeckGeometry where
  neck_angle : ℝ
  neck_stop : ℝ
  neck_angle_rad : ℝ
  neck_end_x : ℝ
  neck_end_y : ℝ
  nut_draw_radius : ℝ
  neck_line_angle : ℝ
  nut_top_x : ℝ
  nut_top_y : ℝ
  bridge_top_x : ℝ
  bridge_top_y : ℝ
  string_length : ℝ
  nut_relative_to_ribs : ℝ

/-- Embedding of `calculate_neck_geometry(params, vsl, neck_stop,
string_angle_to_ribs_rad, string_angle_to_fb, fb_thickness_at_nut,
fb_thickness_at_join, body_stop=None)`. The explicit `body_stop`
argument (used by the guitar path) falls back to
`params.get('body_stop', 0)` when absent. There is no range check of
any kind on the computed `neck_angle`. -/
noncomputable def calculate_neck_geometry (p : NeckParams)
    (vsl neck_stop string_angle_to_ribs_rad string_angle_to_fb
      fb_thickness_at_nut fb_thickness_at_join : ℝ)
    (body_stop : Option ℝ) : NeckGeometry :=
  let arching_height := pyOr p.arching_height 0
  let bridge_height := pyOr p.bridge_height 0
  let overstand := pyOr p.overstand 0
  let string_height_nut := pyOr p.string_height_nut 0
  let bridge_top_x := match body_stop with
    | some b => b
    | none => p.body_stop.getD 0
  let bridge_top_y := arching_height + bridge_height
  let nut_top_x := -neck_stop
  let nut_top_y := bridge_top_y - Real.sin string_angle_to_ribs_rad * vsl
  let opposite_fb := fb_thickness_at_join - fb_thickness_at_nut
  let fingerboard_angle := Real.arctan (opposite_fb / neck_stop) * 180 / Real.pi
  let neck_angle := 90 - (string_angle_to_ribs_rad * 180 / Real.pi
    - string_angle_to_fb - fingerboard_angle)
  let neck_angle_rad := neck_angle * Real.pi / 180
  let neck_end_x := 0 - neck_stop + Real.cos neck_angle_rad * fb_thickness_at_nut
  let neck_end_y := overstand - neck_stop * Real.cos neck_angle_rad
  let nut_draw_radius := fb_thickness_at_nut + string_height_nut
  let neck_line_angle := atan2 (neck_end_y - overstand) (neck_end_x - 0)
  let string_length := Real.sqrt ((bridge_top_x - nut_top_x) ^ 2
    + (bridge_top_y - nut_top_y) ^ 2)
  ⟨neck_angle, neck_stop, neck_angle_rad, neck_end_x, neck_end_y,
    nut_draw_radius, neck_line_angle, nut_top_x, nut_top_y, bridge_top_x,
    bridge_top_y, string_length, nut_top_y⟩

/-! ## Fret table and the fret-join-driven solver
(geometry_engine.py lines 255–296 and 439–444) -/

/-- Embedding of `calculate_fret_positions(vsl, no_frets)`:
`pos[i] = vsl - vsl / 2^(i/12)` for `i = 1..no_frets` (the returned
Python list is 0-indexed, so the entry at index `k` is `pos[k+1]`). -/
noncomputable def calculate_fret_positions (vsl : ℝ) (no_frets : ℕ) : List ℝ :=
  (List.range no_frets).map (fun i : ℕ => vsl - vsl / (2:ℝ) ^ ((i + 1 : ℝ) / 12))

/-- The parameter-bag fields read by `calculate_string_angles_guitar`
(`fret_join` with `params.get('fret_join') or 12`, the rest with
`params.get(k) or 0`). -/
structure GuitarParams where
  fret_join : Option ℕ
  string_height_nut : Option ℝ
  string_height_12th_fret : Option ℝ
  arching_height : Option ℝ
  bridge_height : Option ℝ
  overstand : Option ℝ

/-- The data of the `ValueError` raised by the fret-join solver: the
message embeds the offending `sin_value` together with `bridge_height`,
`arching_height` and `overstand`, modelled here as fields. -/
structure GeometryError where
  sin_value : ℝ
  bridge_height : ℝ
  arching_height : ℝ
  overstand : ℝ

/-- The let-bound `hypotenuse` of `calculate_string_angles_guitar`
(`vsl - fret_positions[fret_join]`), extracted for stating theorems. -/
noncomputable def guitar_hypotenuse (p : GuitarParams) (vsl : ℝ)
    (fret_positions : List ℝ) : ℝ :=
  vsl - fret_positions.getD (pyOrN p.fret_join 12) 0

/-- The let-bound `string_height_at_join` of
`calculate_string_angles_guitar`, extracted for stating theorems. -/
noncomputable def guitar_string_height_at_join (p : GuitarParams)
    (fret_positions : List ℝ) : ℝ :=
  (pyOr p.string_height_12th_fret 0 - pyOr p.string_height_nut 0)
      * (fret_positions.getD (pyOrN p.fret_join 12) 0
        / fret_positions.getD 12 0)
    + pyOr p.string_height_nut 0

/-- The let-bound `sin_value` (`opposite / hypotenuse`) of
`calculate_string_angles_guitar`, extracted for stating theorems. -/
noncomputable def guitar_sin_value (p : GuitarParams) (vsl : ℝ)
    (fret_positions : List ℝ) (fb_thickness_at_join : ℝ) : ℝ :=
  (pyOr p.arching_height 0 + pyOr p.bridge_height 0 - pyOr p.overstand 0
      - fb_thickness_at_join - guitar_string_height_at_join p fret_positions)
    / guitar_hypotenuse p vsl fret_positions

/-- Embedding of `calculate_string_angles_guitar(params, vsl,
fret_positions, fb_thickness_at_join)` (guitar/mandolin family,
fret-join-driven). Raising `ValueError` is modelled as returning
`Except.error`. -/
noncomputable def calculate_string_angles_guitar (p : GuitarParams) (vsl : ℝ)
    (fret_positions : List ℝ) (fb_thickness_at_join : ℝ) :
    Except GeometryError StringAngles :=
  let fret_join := pyOrN p.fret_join 12
  let string_height_nut := pyOr p.string_height_nut 0
  let string_height_12th_fret := pyOr p.string_height_12th_fret 0
  let arching_height := pyOr p.arching_height 0
  let bridge_height := pyOr p.bridge_height 0
  let overstand := pyOr p.overstand 0
  let string_height_at_join := (string_height_12th_fret - string_height_nut)
      * (fret_positions.getD fret_join 0 / fret_positions.getD 12 0)
    + string_height_nut
  let hypotenuse := vsl - fret_positions.getD fret_join 0
  let opposite := arching_height + bridge_height - overstand
    - fb_thickness_at_join - string_height_at_join
  let sin_value := opposite / hypotenuse
  if 1 < |sin_value| then
    Except.error ⟨sin_value, bridge_height, arching_height, overstand⟩
  else
    let string_angle_to_ribs_rad := Real.arcsin sin_value
    let string_angle_to_ribs := string_angle_to_ribs_rad * 180 / Real.pi
    let string_nut_to_join := fret_positions.getD fret_join 0
    let neck_stop := Real.cos string_angle_to_ribs_rad * string_nut_to_join
    let body_stop := Real.cos string_angle_to_ribs_rad * hypotenuse
    let opposite_string_to_join := string_height_at_join - string_height_nut
    let string_angle_to_fb :=
      Real.arctan (opposite_string_to_join / fret_positions.getD fret_join 0)
        * 180 / Real.pi
    Except.ok ⟨body_stop, neck_stop, string_angle_to_ribs_rad,
      string_angle_to_fb, string_angle_to_ribs, string_angle_to_fb⟩

/-! ## DimensionAnnotator: `create_angle_dimension`
(dimension_utils.py lines 273–343)

Only the junction/angle/label computation is embedded: the extension
lines, the arc segments and the text placement emitted afterwards do
not affect the computed angle or the label text. -/

/-- A line `Edge` as used by the dimension builders: the two endpoints
(`position_at(0)` and `position_at(1)` of the source's `Edge`). -/
structure Seg where
  p1 : ℝ × ℝ
  p2 : ℝ × ℝ

/-- The local `dist` helper of `create_angle_dimension`
(Euclidean distance of two points). -/
noncomputable def point_dist (a b : ℝ × ℝ) : ℝ :=
  Real.sqrt ((a.1 - b.1) ^ 2 + (a.2 - b.2) ^ 2)

/-- Python's float modulo `x % y` (`x - y*floor(x/y)`, the sign
following the divisor). -/
noncomputable def pyMod (x y : ℝ) : ℝ := x - y * ⌊x / y⌋

/-- Python's fixed-point formatting `f"{x:.1f}"`: one decimal digit.
(Modelled with round-half-up; the source's float formatting differs only
on exact ties, which do not arise in the claims.) -/
noncomputable def pyFormat1f (x : ℝ) : String :=
  let n : ℤ := round (x * 10)
  let sign := if n < 0 then "-" else ""
  sign ++ toString (n.natAbs / 10) ++ "." ++ toString (n.natAbs % 10)

/-- The junction point, numeric angle and label computed by
`create_angle_dimension(line1, line2, label=None, ...)`. -/
structure AngleDimension where
  junction : ℝ × ℝ
  angle_deg : ℝ
  label : String

/-- Embedding of the junction/angle/label computation of
`create_angle_dimension`: the shared vertex is found by testing the four
endpoint pairs against the `0.01` tolerance (falling back to
`line1.p2`/`line1.p1`/`line2.p1` when none match), the signed angle
between the two rays is normalised to `[0, 360)` and reduced to the
minor angle when above `180`, and with no explicit label the text is the
angle formatted to one decimal with a degree sign. -/
noncomputable def create_angle_dimension (line1 line2 : Seg)
    (label : Option String) : AngleDimension :=
  let tolerance : ℝ := 1 / 100
  let jd :=
    if point_dist line1.p1 line2.p1 < tolerance then
      (line1.p1, line1.p2, line2.p2)
    else if point_dist line1.p1 line2.p2 < tolerance then
      (line1.p1, line1.p2, line2.p1)
    else if point_dist line1.p2 line2.p1 < tolerance then
      (line1.p2, line1.p1, line2.p2)
    else if point_dist line1.p2 line2.p2 < tolerance then
      (line1.p2, line1.p1, line2.p1)
    else
      (line1.p2, line1.p1, line2.p1)
  let junction := jd.1
  let dir1_point := jd.2.1
  let dir2_point := jd.2.2
  let angle1 := atan2 (dir1_point.2 - junction.2) (dir1_point.1 - junction.1)
  let angle2 := atan2 (dir2_point.2 - junction.2) (dir2_point.1 - junction.1)
  let angle_diff := angle2 - angle1
  let angle_deg0 := pyMod (angle_diff * 180 / Real.pi) 360
  let angle_deg := if 180 < angle_deg0 then 360 - angle_deg0 else angle_deg0
  let label_str := match label with
    | some l => l
    | none => pyFormat1f angle_deg ++ "°"
  ⟨junction, angle_deg, label_str⟩

/-! ## VectorScene / SceneSerializer: the `ExportSVG` exporter
(buildprimitives.py lines 360–580)

The layer/style/skip logic uses only dictionary lookups, comparisons and
string constants, so it is modelled computably over `ℚ`/`String`. The
emitted markup strings are modelled structurally: `PathStyle` holds
exactly the attributes the source interpolates into the style string
(stroke colour, stroke width, fill, dash array), and `SvgElement` is the
per-shape output of `write` (a path with a style, or a text element with
an optional colour — Python renders a missing colour as black). -/

/-- The `LineType` enum of buildprimitives.py. -/
inductive LineType where
  | continuous
  | dashed
  | dotted
  | hidden
  deriving DecidableEq

/-- A layer registered via `add_layer`: optional fill colour, optional
line colour, line type. -/
structure SvgLayer where
  fill_color : Option (ℕ × ℕ × ℕ)
  line_color : Option (ℕ × ℕ × ℕ)
  line_type : LineType
  deriving DecidableEq

/-- The closed union of shape kinds the exporter handles (`Edge`, `Arc`,
`Rectangle`, `Spline`, `Polygon`, `Text`), with the fields that the
serialization logic reads. -/
inductive SvgShape where
  | edge (p1 p2 : ℚ × ℚ)
  | arc (center : ℚ × ℚ) (radius start_angle end_angle : ℚ)
  | rectangle (width height x y : ℚ)
  | spline (points : List (ℚ × ℚ)) (is_cubic : Bool)
  | polygon (vertices : List (ℚ × ℚ)) (x y : ℚ) (filled : Bool)
      (fill_pattern : Option String)
  | text (t : String) (font_size : ℚ) (x y : ℚ) (rotation : ℚ)
  deriving DecidableEq

/-- The `ExportSVG` exporter state: scale, line weight, the layer
registry, the accumulated `(shape, layer_name)` pairs, and the margin. -/
structure ExportSVG where
  scale : ℚ
  line_weight : ℚ
  layers : List (String × SvgLayer)
  shapes : List (SvgShape × String)
  margin : ℚ

/-- Replacement-or-append update of the layer registry (Python dict
assignment `self.layers[name] = {...}`). -/
def setLayer (layers : List (String × SvgLayer)) (name : String)
    (l : SvgLayer) : List (String × SvgLayer) :=
  if layers.any (fun kv => kv.1 == name) then
    layers.map (fun kv => if kv.1 = name then (name, l) else kv)
  else layers ++ [(name, l)]

/-- Embedding of `ExportSVG.add_layer(name, fill_color, line_color,
line_type)`. -/
def add_layer (e : ExportSVG) (name : String)
    (fill_color line_color : Option (ℕ × ℕ × ℕ)) (line_type : LineType) :
    ExportSVG :=
  { e with layers := setLayer e.layers name ⟨fill_color, line_color, line_type⟩ }

/-- Embedding of `ExportSVG.add_shape(shape, layer)`. -/
def add_shape (e : ExportSVG) (shape : SvgShape) (layer : String) : ExportSVG :=
  { e with shapes := e.shapes ++ [(shape, layer)] }

/-- The stroke colour of a path style string: `black` (the unregistered
default), `none` (invisible layer) or an rgb colour. -/
inductive StrokeColor where
  | black
  | invisible
  | rgb (c : ℕ × ℕ × ℕ)
  deriving DecidableEq

/-- The fill of a path: `none`, solid black, a layer colour or a named
repeating pattern. -/
inductive FillStyle where
  | nofill
  | black
  | rgb (c : ℕ × ℕ × ℕ)
  | hatch (pattern_id : String)
  deriving DecidableEq

/-- The attributes interpolated into the style string emitted with a
path element. -/
structure PathStyle where
  stroke : StrokeColor
  stroke_width : Option ℚ
  fill : FillStyle
  dasharray : Option String
  deriving DecidableEq

/-- Embedding of `ExportSVG._get_stroke_style(layer_name)`: an
unregistered layer yields `stroke="black"` with the exporter's line
weight and `fill="none"`; a registered layer without line colour yields
the invisible style; otherwise the layer colour, line weight and the
dash array of the layer's line type. -/
def get_stroke_style (e : ExportSVG) (layer_name : String) : PathStyle :=
  match List.lookup layer_name e.layers with
  | none => ⟨StrokeColor.black, some e.line_weight, FillStyle.nofill, none⟩
  | some layer =>
    match layer.line_color with
    | none => ⟨StrokeColor.invisible, none, FillStyle.nofill, none⟩
    | some c =>
      let dash : Option String :=
        match layer.line_type with
        | LineType.dashed => some "5,3"
        | LineType.dotted => some "1,2"
        | LineType.hidden => some "2,2"
        | LineType.continuous => none
      ⟨StrokeColor.rgb c, some e.line_weight, FillStyle.nofill, dash⟩

/-- The fill drawn for a filled polygon without (truthy) pattern: the
layer's fill colour if the layer is registered and has one, else solid
black (write(), lines 554–563). -/
def layerFill (e : ExportSVG) (layer_name : String) : FillStyle :=
  match List.lookup layer_name e.layers with
  | some layer =>
    match layer.fill_color with
    | some fc => FillStyle.rgb fc
    | none => FillStyle.black
  | none => FillStyle.black

/-- One emitted element of `write`: a path with its style attributes, or
a text element with its optional colour. -/
inductive SvgElement where
  | path (shape : SvgShape) (style : PathStyle)
  | textElem (t : String) (font_size : ℚ) (color : Option (ℕ × ℕ × ℕ))
  deriving DecidableEq

/-- The per-shape body of `ExportSVG.write`'s loop: `none` models
`continue` (the shape is skipped), `some` the emitted element. A shape
is skipped exactly when its layer is registered with both colours
absent; text is rendered with the layer's fill colour, else line colour,
else default (black); path shapes get `_get_stroke_style`, with the fill
replaced for filled polygons (named pattern if truthy, else the layer
fill or black). -/
def emit_shape (e : ExportSVG) (item : SvgShape × String) : Option SvgElement :=
  let layer_name := item.2
  let skip : Bool :=
    match List.lookup layer_name e.layers with
    | some layer => layer.fill_color.isNone && layer.line_color.isNone
    | none => false
  if skip then none
  else
    match item.1 with
    | SvgShape.text t fs _ _ _ =>
      let color : Option (ℕ × ℕ × ℕ) :=
        match List.lookup layer_name e.layers with
        | some layer =>
          match layer.fill_color with
          | some fc => some fc
          | none => layer.line_color
        | none => none
      some (SvgElement.textElem t fs color)
    | s =>
      let style := get_stroke_style e layer_name
      let style2 :=
        match s with
        | SvgShape.polygon _ _ _ true fp =>
          let fill :=
            match fp with
            | some pname =>
              if pname = "" then layerFill e layer_name
              else FillStyle.hatch pname
            | none => layerFill e layer_name
          { style with fill := fill }
        | _ => style
      some (SvgElement.path s style2)

/-- Embedding of the shape-emission part of `ExportSVG.write`: every
accumulated `(shape, layer)` pair in order, skipped shapes dropped. -/
def write (e : ExportSVG) : List SvgElement :=
  e.shapes.filterMap (emit_shape e)

/-- A shape whose emitted style is exactly `_get_stroke_style`'s result:
not a text and not a filled polygon. -/
def plainPath : SvgShape → Bool
  | SvgShape.text _ _ _ _ _ => false
  | SvgShape.polygon _ _ _ filled _ => !filled
  | _ => true

/-! ## Claims and supporting lemmas -/

/-- Helper: `pyOr (some v) 0 = v` (when the default is `0`, falsy
coalescing is the identity on present values). -/
lemma pyOr_some_zero (v : ℝ) : pyOr (some v) 0 = v := by
  rcases eq_or_ne v 0 with h | h
  · simp [pyOr, h]
  · simp [pyOr, h]

/-- Helper: `pyOr none d = d`. -/
lemma pyOr_none (d : ℝ) : pyOr none d = d := rfl

/-- Helper: `pyOrN (some v) d = v` for non-zero `v`. -/
lemma pyOrN_some_of_ne (v d : ℕ) (h : v ≠ 0) : pyOrN (some v) d = v := by
  simp [pyOrN, h]

/-- Helper: the non-positive-width branch returns `0`. -/
lemma calculate_sagitta_of_width_nonpos (radius width : ℝ) (h : width ≤ 0) :
    calculate_sagitta radius width = 0 := by
  simp [calculate_sagitta, h]

/-- Helper: the circular branch for `0 < radius`, `0 < width`,
`width / 2 < radius`. -/
lemma calculate_sagitta_of_half_lt (radius width : ℝ) (hr : 0 < radius)
    (hw : 0 < width) (h : width / 2 < radius) :
    calculate_sagitta radius width
      = radius - Real.sqrt (radius ^ 2 - (width / 2) ^ 2) := by
  have h1 : ¬(radius ≤ 0 ∨ width ≤ 0) := by
    push_neg
    exact ⟨hr, hw⟩
  have h2 : ¬(width / 2 ≥ radius) := not_le.mpr h
  simp only [calculate_sagitta]
  rw [if_neg h1]
  show (if width / 2 ≥ radius then width ^ 2 / (8 * radius)
    else radius - Real.sqrt (radius ^ 2 - (width / 2) ^ 2)) = _
  rw [if_neg h2]

/-- Helper: the parabolic branch for `0 < radius`, `0 < width`,
`radius ≤ width / 2`. -/
lemma calculate_sagitta_of_half_ge (radius width : ℝ) (hr : 0 < radius)
    (hw : 0 < width) (h : radius ≤ width / 2) :
    calculate_sagitta radius width = width ^ 2 / (8 * radius) := by
  have h1 : ¬(radius ≤ 0 ∨ width ≤ 0) := by
    push_neg
    exact ⟨hr, hw⟩
  simp [calculate_sagitta, h1, ge_iff_le, h]

/-- Helper: for positive radius the sagitta is never negative, in every
branch of the computation. -/
lemma calculate_sagitta_nonneg (radius width : ℝ) (hr : 0 < radius) :
    0 ≤ calculate_sagitta radius width := by
  rcases le_or_lt width 0 with hw | hw
  · rw [calculate_sagitta_of_width_nonpos radius width hw]
  · rcases le_or_lt radius (width / 2) with hh | hh
    · rw [calculate_sagitta_of_half_ge radius width hr hw hh]
      positivity
    · rw [calculate_sagitta_of_half_lt radius width hr hw hh]
      have hle : Real.sqrt (radius ^ 2 - (width / 2) ^ 2) ≤ radius := by
        have h1 : radius ^ 2 - (width / 2) ^ 2 ≤ radius ^ 2 := by
          nlinarith [sq_nonneg (width / 2)]
        calc Real.sqrt (radius ^ 2 - (width / 2) ^ 2)
            ≤ Real.sqrt (radius ^ 2) := Real.sqrt_le_sqrt h1
          _ = radius := Real.sqrt_sq hr.le
      linarith

/-- C4 counterexample: at `radius = 1`, `width = 10` the parabolic branch
returns `12.5`, which exceeds the radius, so the claimed invariant
`sagitta ∈ [0, radius]` fails for large chords. -/
theorem sagitta_exceeds_radius_counterexample :
    calculate_sagitta 1 10 = 25 / 2 ∧ ¬(calculate_sagitta 1 10 ≤ 1) := by
  have h : calculate_sagitta 1 10 = 10 ^ 2 / (8 * 1) :=
    calculate_sagitta_of_half_ge 1 10 (by norm_num) (by norm_num) (by norm_num)
  rw [h]
  norm_num

/-- C4 (amended): for every radius `r > 0` and chord width `w < 2·r`
(the non-degenerate case), `calculate_sagitta r w` lies in `[0, r]`. -/
theorem sagitta_in_zero_radius_range (r w : ℝ) (hr : 0 < r) (hw : w < 2 * r) :
    0 ≤ calculate_sagitta r w ∧ calculate_sagitta r w ≤ r := by
  refine ⟨calculate_sagitta_nonneg r w hr, ?_⟩
  rcases le_or_lt w 0 with h0 | h0
  · rw [calculate_sagitta_of_width_nonpos r w h0]
    exact hr.le
  · have hh : w / 2 < r := by linarith
    rw [calculate_sagitta_of_half_lt r w hr h0 hh]
    have := Real.sqrt_nonneg (r ^ 2 - (w / 2) ^ 2)
    linarith

/-- C4 witness: the amended statement holds at `r = 2`, `w = 2`. -/
theorem sagitta_in_zero_radius_range_witness :
    (0:ℝ) < 2 ∧ (2:ℝ) < 2 * 2 ∧
      (0 ≤ calculate_sagitta 2 2 ∧ calculate_sagitta 2 2 ≤ 2) :=
  ⟨by norm_num, by norm_num,
    sagitta_in_zero_radius_range 2 2 (by norm_num) (by norm_num)⟩

/-- C5 counterexample: at fixed radius `1`, widths `1.99 ≤ 2`, the
sagitta jumps down across the branch boundary
(`sagitta 1 2 = 0.5 < sagitta 1 1.99`), so monotonicity in the width
fails as claimed. -/
theorem sagitta_not_monotone_counterexample :
    (199 / 100 : ℝ) ≤ 2 ∧
      calculate_sagitta 1 2 < calculate_sagitta 1 (199 / 100) := by
  constructor
  · norm_num
  · have h2 : calculate_sagitta 1 2 = 2 ^ 2 / (8 * 1) :=
      calculate_sagitta_of_half_ge 1 2 (by norm_num) (by norm_num) (by norm_num)
    have h199 : calculate_sagitta 1 (199 / 100)
        = 1 - Real.sqrt (1 ^ 2 - (199 / 100 / 2) ^ 2) :=
      calculate_sagitta_of_half_lt 1 (199 / 100) (by norm_num) (by norm_num)
        (by norm_num)
    rw [h2, h199]
    have hs : Real.sqrt (1 ^ 2 - (199 / 100 / 2) ^ 2) < 1 / 2 := by
      rw [Real.sqrt_lt' (by norm_num : (0:ℝ) < 1 / 2)]
      norm_num
    linarith [hs]

/-- C5 (amended): for fixed radius `r > 0`, `calculate_sagitta r ·` is
monotone non-decreasing on widths below the diameter `2·r`; across the
degenerate branch `w ≥ 2·r` monotonicity can fail. -/
theorem sagitta_monotone_below_diameter (r w1 w2 : ℝ) (hr : 0 < r)
    (h12 : w1 ≤ w2) (h2 : w2 < 2 * r) :
    calculate_sagitta r w1 ≤ calculate_sagitta r w2 := by
  rcases le_or_lt w1 0 with h0 | h0
  · rw [calculate_sagitta_of_width_nonpos r w1 h0]
    exact calculate_sagitta_nonneg r w2 hr
  · have hw2 : 0 < w2 := lt_of_lt_of_le h0 h12
    have hh1 : w1 / 2 < r := by linarith
    have hh2 : w2 / 2 < r := by linarith
    rw [calculate_sagitta_of_half_lt r w1 hr h0 hh1,
      calculate_sagitta_of_half_lt r w2 hr hw2 hh2]
    have hsq : r ^ 2 - (w2 / 2) ^ 2 ≤ r ^ 2 - (w1 / 2) ^ 2 := by
      nlinarith
    have := Real.sqrt_le_sqrt hsq
    linarith

/-- C5 witness: the amended monotonicity holds at `r = 2`, `w1 = 1`,
`w2 = 2`. -/
theorem sagitta_monotone_below_diameter_witness :
    (0:ℝ) < 2 ∧ (1:ℝ) ≤ 2 ∧ (2:ℝ) < 2 * 2 ∧
      calculate_sagitta 2 1 ≤ calculate_sagitta 2 2 :=
  ⟨by norm_num, by norm_num, by norm_num,
    sagitta_monotone_below_diameter 2 1 2 (by norm_num) (by norm_num)
      (by norm_num)⟩

/-- Helper: the bisection loop stays within the invariant interval. -/
lemma find_bezier_loop_mem (p0 cp1 cp2 p3 : ℚ × ℚ) (target_y tolerance : ℚ) :
    ∀ (n : ℕ) (t_low t_high : ℚ), 0 ≤ t_low → t_low ≤ t_high → t_high ≤ 1 →
      0 ≤ find_bezier_loop p0 cp1 cp2 p3 target_y tolerance n t_low t_high ∧
        find_bezier_loop p0 cp1 cp2 p3 target_y tolerance n t_low t_high ≤ 1 := by
  intro n
  induction n with
  | zero =>
    intro t_low t_high h0 h1 h2
    constructor
    · simp only [find_bezier_loop]
      linarith
    · simp only [find_bezier_loop]
      linarith
  | succ n ih =>
    intro t_low t_high h0 h1 h2
    simp only [find_bezier_loop]
    split
    · constructor <;> linarith
    · split
      · exact ih ((t_low + t_high) / 2) t_high (by linarith) (by linarith) h2
      · exact ih t_low ((t_low + t_high) / 2) h0 (by linarith) (by linarith)

/-- C10: for every choice of control points, target and tolerance —
including curves whose Y is not monotone in `t` — the 50-iteration
bisection of `find_bezier_t_for_y` returns a parameter in `[0, 1]`
(termination is by construction: the loop carries 50 as fuel). -/
theorem find_bezier_t_in_unit_interval (p0 cp1 cp2 p3 : ℚ × ℚ)
    (target_y tolerance : ℚ) :
    0 ≤ find_bezier_t_for_y p0 cp1 cp2 p3 target_y tolerance ∧
      find_bezier_t_for_y p0 cp1 cp2 p3 target_y tolerance ≤ 1 :=
  find_bezier_loop_mem p0 cp1 cp2 p3 target_y tolerance 50 0 1 le_rfl
    (by norm_num) le_rfl

/-- Helper: the solved `neck_stop` of the body-stop-driven solver,
written out (pure unfolding of the definition). -/
lemma violin_neck_stop_eq (p : ViolinParams) (vsl fbj : ℝ) :
    (calculate_string_angles_violin p vsl fbj).neck_stop =
      Real.cos (Real.arctan ((pyOr p.arching_height 0 + pyOr p.bridge_height 0
          - pyOr p.overstand 0 - fbj
          - ((pyOr p.string_height_eof 0 - pyOr p.string_height_nut 0)
              * ((vsl - pyOr p.body_stop 0) / pyOr p.fingerboard_length 0)
            + pyOr p.string_height_nut 0)) / pyOr p.body_stop 0)) *
        (vsl - Real.sqrt ((pyOr p.arching_height 0 + pyOr p.bridge_height 0
          - pyOr p.overstand 0 - fbj
          - ((pyOr p.string_height_eof 0 - pyOr p.string_height_nut 0)
              * ((vsl - pyOr p.body_stop 0) / pyOr p.fingerboard_length 0)
            + pyOr p.string_height_nut 0)) ^ 2 + pyOr p.body_stop 0 ^ 2)) :=
  rfl

/-- C6 counterexample: with positive `vsl = 325`, `body_stop = 195`,
`fingerboard_length = 270` but a large `arching_height = 1000`, the
solved `neck_stop` is negative, refuting the unconditional claim
`0 < neck_stop < vsl`. -/
theorem violin_neck_stop_negative_counterexample :
    (0:ℝ) < 325 ∧ (0:ℝ) < 195 ∧ (0:ℝ) < 270 ∧
      (calculate_string_angles_violin
        ⟨some 195, some 1000, none, none, none, none, some 270⟩
        325 0).neck_stop < 0 := by
  refine ⟨by norm_num, by norm_num, by norm_num, ?_⟩
  rw [violin_neck_stop_eq]
  simp only [pyOr_some_zero, pyOr_none]
  have harg : ((1000:ℝ) + 0 - 0 - 0 - ((0 - 0) * ((325 - 195) / 270) + 0))
      = 1000 := by norm_num
  rw [harg]
  have hs : (325:ℝ) < Real.sqrt (1000 ^ 2 + 195 ^ 2) := by
    rw [Real.lt_sqrt (by norm_num : (0:ℝ) ≤ 325)]
    norm_num
  exact mul_neg_of_pos_of_neg (Real.cos_arctan_pos _) (by linarith)

/-- C6 (amended): for positive `vsl`, `body_stop` and
`fingerboard_length`, and whenever the string-to-join distance
`sqrt(opposite² + body_stop²)` is below `vsl` (so the nut lies beyond
the body join), the solved `neck_stop` satisfies `0 < neck_stop < vsl`. -/
theorem violin_neck_stop_in_range (bs ah bh ov shn she fl vsl fbj : ℝ)
    (hvsl : 0 < vsl) (hbs : 0 < bs) (hfl : 0 < fl)
    (hstj : Real.sqrt ((ah + bh - ov - fbj
        - ((she - shn) * ((vsl - bs) / fl) + shn)) ^ 2 + bs ^ 2) < vsl) :
    0 < (calculate_string_angles_violin
          ⟨some bs, some ah, some bh, some ov, some shn, some she, some fl⟩
          vsl fbj).neck_stop ∧
      (calculate_string_angles_violin
          ⟨some bs, some ah, some bh, some ov, some shn, some she, some fl⟩
          vsl fbj).neck_stop < vsl := by
  rw [violin_neck_stop_eq]
  simp only [pyOr_some_zero]
  set O := ah + bh - ov - fbj - ((she - shn) * ((vsl - bs) / fl) + shn) with hO
  have hsqrt_pos : 0 < Real.sqrt (O ^ 2 + bs ^ 2) := by
    rw [Real.sqrt_pos]
    positivity
  have hdiff : 0 < vsl - Real.sqrt (O ^ 2 + bs ^ 2) := by linarith
  constructor
  · exact mul_pos (Real.cos_arctan_pos _) hdiff
  · calc Real.cos (Real.arctan (O / bs)) * (vsl - Real.sqrt (O ^ 2 + bs ^ 2))
        ≤ vsl - Real.sqrt (O ^ 2 + bs ^ 2) :=
          mul_le_of_le_one_left hdiff.le (Real.cos_le_one _)
      _ < vsl := by linarith

/-- C6 witness: the amended statement holds at the standard violin
parameters (`vsl=325`, `body_stop=195`, `fingerboard_length=270`, ...). -/
theorem violin_neck_stop_in_range_witness :
    (0:ℝ) < 325 ∧ (0:ℝ) < 195 ∧ (0:ℝ) < 270 ∧
      (0 < (calculate_string_angles_violin
            ⟨some 195, some 15, some 33, some 12, some (3/5), some 4,
              some 270⟩ 325 (15/2)).neck_stop ∧
        (calculate_string_angles_violin
            ⟨some 195, some 15, some 33, some 12, some (3/5), some 4,
              some 270⟩ 325 (15/2)).neck_stop < 325) :=
  ⟨by norm_num, by norm_num, by norm_num,
    violin_neck_stop_in_range 195 15 33 12 (3/5) 4 270 325 (15/2)
      (by norm_num) (by norm_num) (by norm_num)
      (by
        rw [Real.sqrt_lt' (by norm_num : (0:ℝ) < 325)]
        norm_num)⟩

/-- Helper: the returned `neck_angle`, written out (pure unfolding). -/
lemma neck_geometry_neck_angle_eq (p : NeckParams)
    (vsl ns rib fb fbn fbj : ℝ) (bs : Option ℝ) :
    (calculate_neck_geometry p vsl ns rib fb fbn fbj bs).neck_angle =
      90 - (rib * 180 / Real.pi - fb
        - Real.arctan ((fbj - fbn) / ns) * 180 / Real.pi) :=
  rfl

/-- C1 counterexample: `calculate_neck_geometry` performs no range check,
so for a string-to-ribs angle of `π` radians it returns normally with
`neck_angle = -90`, which lies outside `(0°, 180°)` — refuting the claim
that such a solve fails explicitly. -/
theorem neck_geometry_returns_out_of_range_angle :
    (calculate_neck_geometry ⟨none, none, none, none, none⟩
        100 10 Real.pi 0 5 5 (some 50)).neck_angle = -90 ∧
      ¬(0 < (calculate_neck_geometry ⟨none, none, none, none, none⟩
          100 10 Real.pi 0 5 5 (some 50)).neck_angle) := by
  have h : (calculate_neck_geometry ⟨none, none, none, none, none⟩
      100 10 Real.pi 0 5 5 (some 50)).neck_angle
      = 90 - (Real.pi * 180 / Real.pi - 0
        - Real.arctan (((5:ℝ) - 5) / 10) * 180 / Real.pi) :=
    neck_geometry_neck_angle_eq _ _ _ _ _ _ _ _
  have h5 : ((5:ℝ) - 5) / 10 = 0 := by norm_num
  have hpi : Real.pi * 180 / Real.pi = 180 := by
    field_simp
  rw [h, h5, Real.arctan_zero, hpi]
  norm_num

/-- C1 (amended): `calculate_neck_geometry` performs no range check on
the neck angle: even when the computed
`90 − (stringAngleToRibsDeg − stringAngleToFbDeg − fingerboardAngleDeg)`
lies outside `(0°, 180°)`, it returns normally, with that out-of-range
value as the result's `neck_angle`. -/
theorem neck_geometry_no_range_check (p : NeckParams)
    (vsl ns rib fb fbn fbj : ℝ) (bs : Option ℝ)
    (hout : 90 - (rib * 180 / Real.pi - fb
          - Real.arctan ((fbj - fbn) / ns) * 180 / Real.pi) ≤ 0 ∨
        180 ≤ 90 - (rib * 180 / Real.pi - fb
          - Real.arctan ((fbj - fbn) / ns) * 180 / Real.pi)) :
    (calculate_neck_geometry p vsl ns rib fb fbn fbj bs).neck_angle =
        90 - (rib * 180 / Real.pi - fb
          - Real.arctan ((fbj - fbn) / ns) * 180 / Real.pi) ∧
      ((calculate_neck_geometry p vsl ns rib fb fbn fbj bs).neck_angle ≤ 0 ∨
        180 ≤ (calculate_neck_geometry p vsl ns rib fb fbn fbj bs).neck_angle) := by
  refine ⟨rfl, ?_⟩
  rw [neck_geometry_neck_angle_eq]
  exact hout

/-- C1 witness: the amended statement holds at the concrete input whose
computed neck angle is `-90`. -/
theorem neck_geometry_no_range_check_witness :
    (90 - (Real.pi * 180 / Real.pi - 0
        - Real.arctan (((5:ℝ) - 5) / 10) * 180 / Real.pi) ≤ 0 ∨
      180 ≤ 90 - (Real.pi * 180 / Real.pi - 0
        - Real.arctan (((5:ℝ) - 5) / 10) * 180 / Real.pi)) ∧
    ((calculate_neck_geometry ⟨none, none, none, none, none⟩
        100 10 Real.pi 0 5 5 (some 50)).neck_angle =
        90 - (Real.pi * 180 / Real.pi - 0
          - Real.arctan (((5:ℝ) - 5) / 10) * 180 / Real.pi) ∧
      ((calculate_neck_geometry ⟨none, none, none, none, none⟩
          100 10 Real.pi 0 5 5 (some 50)).neck_angle ≤ 0 ∨
        180 ≤ (calculate_neck_geometry ⟨none, none, none, none, none⟩
          100 10 Real.pi 0 5 5 (some 50)).neck_angle)) := by
  have hpi : Real.pi * 180 / Real.pi = 180 := by field_simp
  have hout : 90 - (Real.pi * 180 / Real.pi - 0
      - Real.arctan (((5:ℝ) - 5) / 10) * 180 / Real.pi) ≤ 0 ∨
      180 ≤ 90 - (Real.pi * 180 / Real.pi - 0
      - Real.arctan (((5:ℝ) - 5) / 10) * 180 / Real.pi) := by
    left
    have h5 : ((5:ℝ) - 5) / 10 = 0 := by norm_num
    rw [h5, Real.arctan_zero, hpi]
    norm_num
  exact ⟨hout, neck_geometry_no_range_check _ 100 10 Real.pi 0 5 5 (some 50) hout⟩

/-- Helper: indexing the fret table. -/
lemma calculate_fret_positions_getD (vsl : ℝ) (n i : ℕ) (h : i < n) :
    (calculate_fret_positions vsl n).getD i 0
      = vsl - vsl / (2:ℝ) ^ (((i:ℝ) + 1) / 12) := by
  unfold calculate_fret_positions
  rw [List.getD_eq_getElem?_getD, List.getElem?_map, List.getElem?_range h]
  rfl

/-- Helper: the raising branch of the fret-join solver. -/
lemma calculate_string_angles_guitar_error (p : GuitarParams) (vsl fbj : ℝ)
    (fps : List ℝ) (h : 1 < |guitar_sin_value p vsl fps fbj|) :
    calculate_string_angles_guitar p vsl fps fbj =
      Except.error ⟨guitar_sin_value p vsl fps fbj, pyOr p.bridge_height 0,
        pyOr p.arching_height 0, pyOr p.overstand 0⟩ := by
  unfold calculate_string_angles_guitar
  simp only []
  split_ifs with hc
  · rfl
  · exact absurd h hc

/-- Helper: the normal-return branch of the fret-join solver. -/
lemma calculate_string_angles_guitar_ok (p : GuitarParams) (vsl fbj : ℝ)
    (fps : List ℝ) (h : ¬ 1 < |guitar_sin_value p vsl fps fbj|) :
    calculate_string_angles_guitar p vsl fps fbj =
      Except.ok ⟨Real.cos (Real.arcsin (guitar_sin_value p vsl fps fbj))
          * guitar_hypotenuse p vsl fps,
        Real.cos (Real.arcsin (guitar_sin_value p vsl fps fbj))
          * fps.getD (pyOrN p.fret_join 12) 0,
        Real.arcsin (guitar_sin_value p vsl fps fbj),
        Real.arctan ((guitar_string_height_at_join p fps
            - pyOr p.string_height_nut 0)
          / fps.getD (pyOrN p.fret_join 12) 0) * 180 / Real.pi,
        Real.arcsin (guitar_sin_value p vsl fps fbj) * 180 / Real.pi,
        Real.arctan ((guitar_string_height_at_join p fps
            - pyOr p.string_height_nut 0)
          / fps.getD (pyOrN p.fret_join 12) 0) * 180 / Real.pi⟩ := by
  unfold calculate_string_angles_guitar
  simp only []
  split_ifs with hc
  · exact absurd hc h
  · rfl

/-- C3: for every input to the fret-join solver with in-bounds indices
and nonzero hypotenuse, an error is raised if and only if
`|opposite/hypotenuse| > 1`, the error carrying that offending value;
when `|opposite/hypotenuse| ≤ 1` the solver returns normally with
`string_angle_to_ribs_rad = asin(opposite/hypotenuse)`. -/
theorem guitar_solver_raises_iff_sin_out_of_range (p : GuitarParams)
    (vsl fbj : ℝ) (fps : List ℝ)
    (hj : pyOrN p.fret_join 12 < fps.length) (h12 : 12 < fps.length)
    (hhyp : guitar_hypotenuse p vsl fps ≠ 0) :
    ((∃ e, calculate_string_angles_guitar p vsl fps fbj = Except.error e ∧
        e.sin_value = guitar_sin_value p vsl fps fbj) ↔
      1 < |guitar_sin_value p vsl fps fbj|) ∧
    (|guitar_sin_value p vsl fps fbj| ≤ 1 →
      ∃ r, calculate_string_angles_guitar p vsl fps fbj = Except.ok r ∧
        r.string_angle_to_ribs_rad =
          Real.arcsin (guitar_sin_value p vsl fps fbj)) := by
  constructor
  · constructor
    · rintro ⟨e, he, hsv⟩
      by_cases hc : 1 < |guitar_sin_value p vsl fps fbj|
      · exact hc
      · rw [calculate_string_angles_guitar_ok p vsl fbj fps hc] at he
        exact absurd he (by simp)
    · intro hc
      exact ⟨_, calculate_string_angles_guitar_error p vsl fbj fps hc, rfl⟩
  · intro hle
    have hc : ¬ 1 < |guitar_sin_value p vsl fps fbj| := not_lt.mpr hle
    exact ⟨_, calculate_string_angles_guitar_ok p vsl fbj fps hc, rfl⟩

/-- Helper: entry 11 of the 14-fret table on `vsl = 650` is the octave
position `325`. -/
lemma fret_positions_650_14_at_11 :
    (calculate_fret_positions 650 14).getD 11 0 = 325 := by
  rw [calculate_fret_positions_getD 650 14 11 (by norm_num)]
  have h12 : (((11:ℕ):ℝ) + 1) / 12 = 1 := by norm_num
  rw [h12, Real.rpow_one]
  norm_num

/-- C3 witness: at the test-suite guitar parameters (`vsl = 650`,
14 frets with a prepended nut entry, join at fret 12) the hypotheses
hold and the solver returns normally. -/
theorem guitar_solver_raises_iff_sin_out_of_range_witness :
    (pyOrN (some 12) 12
        < (0 :: calculate_fret_positions 650 14 : List ℝ).length) ∧
    (12 < (0 :: calculate_fret_positions 650 14 : List ℝ).length) ∧
    (guitar_hypotenuse ⟨some 12, some (3/5), some 4, some 10, some 12, some 6⟩
        650 (0 :: calculate_fret_positions 650 14) ≠ 0) ∧
    (((∃ e, calculate_string_angles_guitar
          ⟨some 12, some (3/5), some 4, some 10, some 12, some 6⟩ 650
          (0 :: calculate_fret_positions 650 14) 8 = Except.error e ∧
        e.sin_value = guitar_sin_value
          ⟨some 12, some (3/5), some 4, some 10, some 12, some 6⟩ 650
          (0 :: calculate_fret_positions 650 14) 8) ↔
      1 < |guitar_sin_value
          ⟨some 12, some (3/5), some 4, some 10, some 12, some 6⟩ 650
          (0 :: calculate_fret_positions 650 14) 8|) ∧
    (|guitar_sin_value
          ⟨some 12, some (3/5), some 4, some 10, some 12, some 6⟩ 650
          (0 :: calculate_fret_positions 650 14) 8| ≤ 1 →
      ∃ r, calculate_string_angles_guitar
          ⟨some 12, some (3/5), some 4, some 10, some 12, some 6⟩ 650
          (0 :: calculate_fret_positions 650 14) 8 = Except.ok r ∧
        r.string_angle_to_ribs_rad =
          Real.arcsin (guitar_sin_value
            ⟨some 12, some (3/5), some 4, some 10, some 12, some 6⟩ 650
            (0 :: calculate_fret_positions 650 14) 8))) := by
  have hlen : (0 :: calculate_fret_positions 650 14 : List ℝ).length = 15 := by
    simp [calculate_fret_positions]
  have hjoin : pyOrN (some 12) 12 = 12 := pyOrN_some_of_ne 12 12 (by norm_num)
  have hat : (0 :: calculate_fret_positions 650 14 : List ℝ).getD 12 0 = 325 := by
    rw [show (12:ℕ) = 11 + 1 from rfl, List.getD_cons_succ]
    exact fret_positions_650_14_at_11
  have hhyp : guitar_hypotenuse
      ⟨some 12, some (3/5), some 4, some 10, some 12, some 6⟩
      650 (0 :: calculate_fret_positions 650 14) ≠ 0 := by
    unfold guitar_hypotenuse
    rw [hjoin, hat]
    norm_num
  refine ⟨?_, ?_, hhyp, ?_⟩
  · rw [hlen, hjoin]
    norm_num
  · rw [hlen]
    norm_num
  · exact guitar_solver_raises_iff_sin_out_of_range
      ⟨some 12, some (3/5), some 4, some 10, some 12, some 6⟩ 650 8
      (0 :: calculate_fret_positions 650 14)
      (by rw [hlen, hjoin]; norm_num) (by rw [hlen]; norm_num) hhyp

/-- C2: with the fret table built by `calculate_fret_positions` (so that,
after the callers' prepended nut entry `0`, index `i` holds
`pos[i] = vsl − vsl/2^(i/12)` for `i = 1..noFrets`), the fret-join
solver with join index `j` uses `hypotenuse = vsl − pos[j] =
vsl/2^(j/12)`, and returns `neckStop = cos(stringAngleToRibs)·pos[j]`
and `bodyStop = cos(stringAngleToRibs)·hypotenuse`. -/
theorem guitar_solver_fret_table_and_stops (vsl : ℝ) (n j : ℕ)
    (p : GuitarParams) (fbj : ℝ) (h1 : 1 ≤ j) (h2 : j ≤ n) (h12 : 12 ≤ n)
    (hp : p.fret_join = some j) :
    (∀ i : ℕ, 1 ≤ i → i ≤ n →
      (0 :: calculate_fret_positions vsl n).getD i 0
        = vsl - vsl / (2:ℝ) ^ ((i : ℝ) / 12)) ∧
    (vsl - (0 :: calculate_fret_positions vsl n).getD j 0
        = vsl / (2:ℝ) ^ ((j : ℝ) / 12)) ∧
    (∀ r, calculate_string_angles_guitar p vsl
        (0 :: calculate_fret_positions vsl n) fbj = Except.ok r →
      r.neck_stop = Real.cos r.string_angle_to_ribs_rad
          * (0 :: calculate_fret_positions vsl n).getD j 0 ∧
        r.body_stop = Real.cos r.string_angle_to_ribs_rad
          * (vsl - (0 :: calculate_fret_positions vsl n).getD j 0)) := by
  have htab : ∀ i : ℕ, 1 ≤ i → i ≤ n →
      (0 :: calculate_fret_positions vsl n).getD i 0
        = vsl - vsl / (2:ℝ) ^ ((i : ℝ) / 12) := by
    intro i hi1 hi2
    cases i with
    | zero => omega
    | succ k =>
      rw [List.getD_cons_succ,
        calculate_fret_positions_getD vsl n k (by omega)]
      push_cast
      ring_nf
  refine ⟨htab, ?_, ?_⟩
  · rw [htab j h1 h2]
    ring
  · intro r hr
    have hjoin : pyOrN p.fret_join 12 = j := by
      rw [hp]
      exact pyOrN_some_of_ne j 12 (by omega)
    by_cases hc : 1 < |guitar_sin_value p vsl
        (0 :: calculate_fret_positions vsl n) fbj|
    · rw [calculate_string_angles_guitar_error p vsl fbj _ hc] at hr
      exact absurd hr (by simp)
    · rw [calculate_string_angles_guitar_ok p vsl fbj _ hc] at hr
      injection hr with hre
      subst hre
      refine ⟨?_, ?_⟩ <;> simp [hjoin, guitar_hypotenuse]

/-- C2 witness: the statement holds at the test-suite guitar input
(`vsl = 650`, `14` frets, join at fret `12`). -/
theorem guitar_solver_fret_table_and_stops_witness :
    (1 ≤ 12) ∧ (12 ≤ 14) ∧ (12 ≤ 14) ∧
    ((⟨some 12, some (3/5), some 4, some 10, some 12, some 6⟩ :
        GuitarParams).fret_join = some 12) ∧
    ((∀ i : ℕ, 1 ≤ i → i ≤ 14 →
      (0 :: calculate_fret_positions 650 14).getD i 0
        = 650 - 650 / (2:ℝ) ^ ((i : ℝ) / 12)) ∧
    (650 - (0 :: calculate_fret_positions 650 14).getD 12 0
        = 650 / (2:ℝ) ^ ((12 : ℝ) / 12)) ∧
    (∀ r, calculate_string_angles_guitar
        ⟨some 12, some (3/5), some 4, some 10, some 12, some 6⟩ 650
        (0 :: calculate_fret_positions 650 14) 8 = Except.ok r →
      r.neck_stop = Real.cos r.string_angle_to_ribs_rad
          * (0 :: calculate_fret_positions 650 14).getD 12 0 ∧
        r.body_stop = Real.cos r.string_angle_to_ribs_rad
          * (650 - (0 :: calculate_fret_positions 650 14).getD 12 0))) :=
  ⟨by norm_num, by norm_num, by norm_num, rfl,
    by
      have h := guitar_solver_fret_table_and_stops 650 14 12
        ⟨some 12, some (3/5), some 4, some 10, some 12, some 6⟩ 8
        (by norm_num) (by norm_num) (by norm_num) rfl
      have hcast : ((12:ℕ) : ℝ) = (12:ℝ) := by norm_num
      refine ⟨?_, ?_, h.2.2⟩
      · intro i hi1 hi2
        exact h.1 i hi1 hi2
      · rw [← hcast]
        exact h.2.1⟩

/-! ## Arctangent bounds used for the end-to-end numeric scenario -/

/-- Helper: `arctan x < x` for positive `x`. -/
lemma arctan_lt_self (x : ℝ) (h : 0 < x) : Real.arctan x < x := by
  have h1 : 0 < Real.arctan x := by
    have := Real.arctan_strictMono h
    rwa [Real.arctan_zero] at this
  calc Real.arctan x < Real.tan (Real.arctan x) :=
        Real.lt_tan h1 (Real.arctan_lt_pi_div_two x)
    _ = x := Real.tan_arctan x

/-- Helper: `arctan` is non-negative on non-negative inputs. -/
lemma arctan_nonneg (x : ℝ) (h : 0 ≤ x) : 0 ≤ Real.arctan x := by
  rcases eq_or_lt_of_le h with h0 | h0
  · rw [← h0, Real.arctan_zero]
  · have := Real.arctan_strictMono h0
    rw [Real.arctan_zero] at this
    exact this.le

/-- Helper: the lower bound `x / sqrt(1 + x²) ≤ arctan x` for `x ≥ 0`
(from `sin t ≤ t` applied at `t = arctan x`). -/
lemma div_sqrt_le_arctan (x : ℝ) (h : 0 ≤ x) :
    x / Real.sqrt (1 + x ^ 2) ≤ Real.arctan x := by
  have hs := Real.sin_le (arctan_nonneg x h)
  rwa [Real.sin_arctan] at hs

/-- Helper: the returned `neck_stop` of `calculate_neck_geometry` is the
`neck_stop` argument, unchanged. -/
lemma neck_geometry_neck_stop_eq (p : NeckParams)
    (vsl ns rib fb fbn fbj : ℝ) (bs : Option ℝ) :
    (calculate_neck_geometry p vsl ns rib fb fbn fbj bs).neck_stop = ns := rfl

/-- Helper: the solved `string_angle_to_ribs_rad` of the body-stop-driven
solver, written out (pure unfolding of the definition). -/
lemma violin_ribs_rad_eq (p : ViolinParams) (vsl fbj : ℝ) :
    (calculate_string_angles_violin p vsl fbj).string_angle_to_ribs_rad =
      Real.arctan ((pyOr p.arching_height 0 + pyOr p.bridge_height 0
          - pyOr p.overstand 0 - fbj
          - ((pyOr p.string_height_eof 0 - pyOr p.string_height_nut 0)
              * ((vsl - pyOr p.body_stop 0) / pyOr p.fingerboard_length 0)
            + pyOr p.string_height_nut 0)) / pyOr p.body_stop 0) :=
  rfl

/-- Helper: the solved `string_angle_to_fb` of the body-stop-driven
solver, written out (pure unfolding of the definition). -/
lemma violin_fb_eq (p : ViolinParams) (vsl fbj : ℝ) :
    (calculate_string_angles_violin p vsl fbj).string_angle_to_fb =
      Real.arctan ((pyOr p.string_height_eof 0 - pyOr p.string_height_nut 0)
        / pyOr p.fingerboard_length 0) * 180 / Real.pi :=
  rfl

set_option maxHeartbeats 1600000 in
/-- C7: the end-to-end body-stop-driven scenario `vsl=325, bodyStop=195,
archingHeight=15, bridgeHeight=33, overstand=12, fbThicknessAtNut=5.5,
fbThicknessAtJoin=7.5, stringHeightNut=0.6, stringHeightEof=4.0,
fingerboardLength=270`: composing `calculate_string_angles_violin` with
`calculate_neck_geometry` yields a neck angle in `(78°, 88°)` and a
neck stop in `(120, 140)` mm. -/
theorem end_to_end_violin_scenario :
    (78 < (calculate_neck_geometry ⟨some 15, some 33, some 12, some (3/5), some 195⟩
        325
        (calculate_string_angles_violin
          ⟨some 195, some 15, some 33, some 12, some (3/5), some 4, some 270⟩
          325 (15/2)).neck_stop
        (calculate_string_angles_violin
          ⟨some 195, some 15, some 33, some 12, some (3/5), some 4, some 270⟩
          325 (15/2)).string_angle_to_ribs_rad
        (calculate_string_angles_violin
          ⟨some 195, some 15, some 33, some 12, some (3/5), some 4, some 270⟩
          325 (15/2)).string_angle_to_fb
        (11/2) (15/2) none).neck_angle ∧
      (calculate_neck_geometry ⟨some 15, some 33, some 12, some (3/5), some 195⟩
        325
        (calculate_string_angles_violin
          ⟨some 195, some 15, some 33, some 12, some (3/5), some 4, some 270⟩
          325 (15/2)).neck_stop
        (calculate_string_angles_violin
          ⟨some 195, some 15, some 33, some 12, some (3/5), some 4, some 270⟩
          325 (15/2)).string_angle_to_ribs_rad
        (calculate_string_angles_violin
          ⟨some 195, some 15, some 33, some 12, some (3/5), some 4, some 270⟩
          325 (15/2)).string_angle_to_fb
        (11/2) (15/2) none).neck_angle < 88) ∧
    (120 < (calculate_neck_geometry ⟨some 15, some 33, some 12, some (3/5), some 195⟩
        325
        (calculate_string_angles_violin
          ⟨some 195, some 15, some 33, some 12, some (3/5), some 4, some 270⟩
          325 (15/2)).neck_stop
        (calculate_string_angles_violin
          ⟨some 195, some 15, some 33, some 12, some (3/5), some 4, some 270⟩
          325 (15/2)).string_angle_to_ribs_rad
        (calculate_string_angles_violin
          ⟨some 195, some 15, some 33, some 12, some (3/5), some 4, some 270⟩
          325 (15/2)).string_angle_to_fb
        (11/2) (15/2) none).neck_stop ∧
      (calculate_neck_geometry ⟨some 15, some 33, some 12, some (3/5), some 195⟩
        325
        (calculate_string_angles_violin
          ⟨some 195, some 15, some 33, some 12, some (3/5), some 4, some 270⟩
          325 (15/2)).neck_stop
        (calculate_string_angles_violin
          ⟨some 195, some 15, some 33, some 12, some (3/5), some 4, some 270⟩
          325 (15/2)).string_angle_to_ribs_rad
        (calculate_string_angles_violin
          ⟨some 195, some 15, some 33, some 12, some (3/5), some 4, some 270⟩
          325 (15/2)).string_angle_to_fb
        (11/2) (15/2) none).neck_stop < 140) := by
  have hrad : (calculate_string_angles_violin
      ⟨some 195, some 15, some 33, some 12, some (3/5), some 4, some 270⟩
      325 (15/2)).string_angle_to_ribs_rad
      = Real.arctan (7091 / 52650) := by
    rw [violin_ribs_rad_eq]
    norm_num [pyOr_some_zero]
  have hfb : (calculate_string_angles_violin
      ⟨some 195, some 15, some 33, some 12, some (3/5), some 4, some 270⟩
      325 (15/2)).string_angle_to_fb
      = Real.arctan (17 / 1350) * 180 / Real.pi := by
    rw [violin_fb_eq]
    norm_num [pyOr_some_zero]
  have hNS : (calculate_string_angles_violin
      ⟨some 195, some 15, some 33, some 12, some (3/5), some 4, some 270⟩
      325 (15/2)).neck_stop
      = Real.cos (Real.arctan (7091 / 52650))
        * (325 - Real.sqrt (2822304781 / 72900)) := by
    rw [violin_neck_stop_eq]
    norm_num [pyOr_some_zero]
  -- Numeric bounds on the pieces.
  have hcos_pos : 0 < Real.cos (Real.arctan (7091 / 52650)) :=
    Real.cos_arctan_pos _
  have hcos_le1 : Real.cos (Real.arctan (7091 / 52650)) ≤ 1 :=
    Real.cos_le_one _
  have hsq1 : Real.sqrt (1 + (7091 / 52650 : ℝ) ^ 2) < 101 / 100 := by
    rw [Real.sqrt_lt' (by norm_num : (0:ℝ) < 101 / 100)]
    norm_num
  have hsq1' : (1:ℝ) ≤ Real.sqrt (1 + (7091 / 52650 : ℝ) ^ 2) := by
    rw [Real.one_le_sqrt]
    nlinarith [sq_nonneg ((7091 : ℝ) / 52650)]
  have hsq1_pos : (0:ℝ) < Real.sqrt (1 + (7091 / 52650 : ℝ) ^ 2) := by
    linarith
  have hcos_gt : (100 / 101 : ℝ) < Real.cos (Real.arctan (7091 / 52650)) := by
    rw [Real.cos_arctan]
    rw [lt_div_iff hsq1_pos]
    nlinarith [hsq1, hsq1_pos]
  have hS_lt : Real.sqrt (2822304781 / 72900 : ℝ) < 19677 / 100 := by
    rw [Real.sqrt_lt' (by norm_num : (0:ℝ) < 19677 / 100)]
    norm_num
  have hS_gt : (1967 / 10 : ℝ) < Real.sqrt (2822304781 / 72900 : ℝ) := by
    rw [Real.lt_sqrt (by norm_num : (0:ℝ) ≤ 1967 / 10)]
    norm_num
  -- Bounds on the solved neck stop.
  have hd_gt : (12823 / 100 : ℝ)
      < 325 - Real.sqrt (2822304781 / 72900 : ℝ) := by linarith
  have hd_lt : 325 - Real.sqrt (2822304781 / 72900 : ℝ)
      < (1283 / 10 : ℝ) := by linarith
  have hNS_gt : (12823 / 101 : ℝ)
      < Real.cos (Real.arctan (7091 / 52650))
        * (325 - Real.sqrt (2822304781 / 72900)) := by
    have h1 : (100 / 101 : ℝ) * (12823 / 100)
        < Real.cos (Real.arctan (7091 / 52650)) * (12823 / 100) := by
      nlinarith [hcos_gt]
    have h2 : Real.cos (Real.arctan (7091 / 52650)) * (12823 / 100)
        < Real.cos (Real.arctan (7091 / 52650))
          * (325 - Real.sqrt (2822304781 / 72900)) := by
      nlinarith [hcos_pos, hd_gt]
    have h3 : (12823 / 101 : ℝ) = (100 / 101) * (12823 / 100) := by norm_num
    linarith [h3 ▸ h1]
  have hNS_lt : Real.cos (Real.arctan (7091 / 52650))
      * (325 - Real.sqrt (2822304781 / 72900)) < (1283 / 10 : ℝ) := by
    have h0 : (0:ℝ) ≤ 325 - Real.sqrt (2822304781 / 72900) := by linarith
    have h1 : Real.cos (Real.arctan (7091 / 52650))
        * (325 - Real.sqrt (2822304781 / 72900))
        ≤ 325 - Real.sqrt (2822304781 / 72900) :=
      mul_le_of_le_one_left h0 hcos_le1
    linarith
  have hNS_pos : (0:ℝ) < Real.cos (Real.arctan (7091 / 52650))
      * (325 - Real.sqrt (2822304781 / 72900)) := by
    have : (0:ℝ) < 12823 / 101 := by norm_num
    linarith
  -- Arctangent bounds.
  have hA_lt : Real.arctan (7091 / 52650) < (7091 / 52650 : ℝ) :=
    arctan_lt_self _ (by norm_num)
  have hA_gt : (709100 / 5317650 : ℝ) < Real.arctan (7091 / 52650) := by
    have h1 : (7091 / 52650 : ℝ) / Real.sqrt (1 + (7091 / 52650 : ℝ) ^ 2)
        ≤ Real.arctan (7091 / 52650) :=
      div_sqrt_le_arctan _ (by norm_num)
    have h2 : (7091 / 52650 : ℝ) / (101 / 100)
        < (7091 / 52650 : ℝ) / Real.sqrt (1 + (7091 / 52650 : ℝ) ^ 2) :=
      div_lt_div_of_pos_left (by norm_num) hsq1_pos hsq1
    have h3 : (709100 / 5317650 : ℝ) = (7091 / 52650 : ℝ) / (101 / 100) := by
      norm_num
    linarith [h3 ▸ h2]
  have hB_lt : Real.arctan (17 / 1350) < (17 / 1350 : ℝ) :=
    arctan_lt_self _ (by norm_num)
  have hB_ge : (0:ℝ) ≤ Real.arctan (17 / 1350) :=
    arctan_nonneg _ (by norm_num)
  have hC_pos : (0:ℝ) < 2 / (Real.cos (Real.arctan (7091 / 52650))
      * (325 - Real.sqrt (2822304781 / 72900))) := by positivity
  have hC_lt : 2 / (Real.cos (Real.arctan (7091 / 52650))
      * (325 - Real.sqrt (2822304781 / 72900))) < (202 / 12823 : ℝ) := by
    have h1 : (2:ℝ) / (Real.cos (Real.arctan (7091 / 52650))
        * (325 - Real.sqrt (2822304781 / 72900)))
        < 2 / (12823 / 101 : ℝ) :=
      div_lt_div_of_pos_left (by norm_num) (by norm_num) hNS_gt
    have h2 : (2:ℝ) / (12823 / 101) = 202 / 12823 := by norm_num
    linarith [h2 ▸ h1]
  have hCat_lt : Real.arctan (2 / (Real.cos (Real.arctan (7091 / 52650))
      * (325 - Real.sqrt (2822304781 / 72900)))) < (202 / 12823 : ℝ) :=
    lt_trans (arctan_lt_self _ hC_pos) hC_lt
  have hCat_ge : (0:ℝ) ≤ Real.arctan (2 / (Real.cos (Real.arctan (7091 / 52650))
      * (325 - Real.sqrt (2822304781 / 72900)))) :=
    arctan_nonneg _ hC_pos.le
  -- Pi bounds.
  have hpi_gt : (3:ℝ) < Real.pi := Real.pi_gt_three
  have hpi_lt : Real.pi < 3.15 := Real.pi_lt_d2
  have hpi_pos : (0:ℝ) < Real.pi := by linarith
  -- The neck angle in closed form.
  have hna : (calculate_neck_geometry ⟨some 15, some 33, some 12, some (3/5), some 195⟩
      325
      (calculate_string_angles_violin
        ⟨some 195, some 15, some 33, some 12, some (3/5), some 4, some 270⟩
        325 (15/2)).neck_stop
      (calculate_string_angles_violin
        ⟨some 195, some 15, some 33, some 12, some (3/5), some 4, some 270⟩
        325 (15/2)).string_angle_to_ribs_rad
      (calculate_string_angles_violin
        ⟨some 195, some 15, some 33, some 12, some (3/5), some 4, some 270⟩
        325 (15/2)).string_angle_to_fb
      (11/2) (15/2) none).neck_angle
      = 90 - (Real.arctan (7091 / 52650)
          - Real.arctan (17 / 1350)
          - Real.arctan (2 / (Real.cos (Real.arctan (7091 / 52650))
              * (325 - Real.sqrt (2822304781 / 72900))))) * 180 / Real.pi := by
    rw [neck_geometry_neck_angle_eq, hrad, hfb, hNS]
    have h2 : ((15:ℝ)/2 - 11/2) = 2 := by norm_num
    rw [h2]
    ring
  have hns_pass : (calculate_neck_geometry ⟨some 15, some 33, some 12, some (3/5), some 195⟩
      325
      (calculate_string_angles_violin
        ⟨some 195, some 15, some 33, some 12, some (3/5), some 4, some 270⟩
        325 (15/2)).neck_stop
      (calculate_string_angles_violin
        ⟨some 195, some 15, some 33, some 12, some (3/5), some 4, some 270⟩
        325 (15/2)).string_angle_to_ribs_rad
      (calculate_string_angles_violin
        ⟨some 195, some 15, some 33, some 12, some (3/5), some 4, some 270⟩
        325 (15/2)).string_angle_to_fb
      (11/2) (15/2) none).neck_stop
      = Real.cos (Real.arctan (7091 / 52650))
        * (325 - Real.sqrt (2822304781 / 72900)) := by
    rw [neck_geometry_neck_stop_eq, hNS]
  -- The combined angle term and its bounds.
  have hX_lt : Real.arctan (7091 / 52650) - Real.arctan (17 / 1350)
      - Real.arctan (2 / (Real.cos (Real.arctan (7091 / 52650))
          * (325 - Real.sqrt (2822304781 / 72900))))
      < (7091 / 52650 : ℝ) := by linarith
  have hX_gt : (709100 / 5317650 - 17 / 1350 - 202 / 12823 : ℝ)
      < Real.arctan (7091 / 52650) - Real.arctan (17 / 1350)
        - Real.arctan (2 / (Real.cos (Real.arctan (7091 / 52650))
            * (325 - Real.sqrt (2822304781 / 72900)))) := by linarith
  have hprod_lt : (Real.arctan (7091 / 52650) - Real.arctan (17 / 1350)
      - Real.arctan (2 / (Real.cos (Real.arctan (7091 / 52650))
          * (325 - Real.sqrt (2822304781 / 72900))))) * 180 / Real.pi
      < 12 := by
    rw [div_lt_iff hpi_pos]
    linarith [hX_lt, hpi_gt]
  have hprod_gt : (2:ℝ) < (Real.arctan (7091 / 52650) - Real.arctan (17 / 1350)
      - Real.arctan (2 / (Real.cos (Real.arctan (7091 / 52650))
          * (325 - Real.sqrt (2822304781 / 72900))))) * 180 / Real.pi := by
    rw [lt_div_iff hpi_pos]
    linarith [hX_gt, hpi_lt]
  refine ⟨⟨?_, ?_⟩, ?_, ?_⟩
  · rw [hna]
    linarith
  · rw [hna]
    linarith
  · rw [hns_pass]
    linarith
  · rw [hns_pass]
    linarith

/-- Helper: `atan2 0 1 = 0`. -/
lemma atan2_zero_one : atan2 0 1 = 0 := by
  unfold atan2
  rw [if_pos one_pos]
  norm_num [Real.arctan_zero]

/-- Helper: `atan2 1 0 = π/2`. -/
lemma atan2_one_zero : atan2 1 0 = Real.pi / 2 := by
  unfold atan2
  rw [if_neg (lt_irrefl (0:ℝ)), if_neg (lt_irrefl (0:ℝ)), if_pos one_pos]

/-- C8: an angle dimension between the unit segment along +X and the
unit segment along +Y, sharing the origin, with no explicit label,
computes an angle of `90.0` degrees and emits the text label `"90.0°"`. -/
theorem angle_dimension_unit_vectors_label :
    (create_angle_dimension ⟨((0:ℝ), (0:ℝ)), ((1:ℝ), (0:ℝ))⟩
        ⟨((0:ℝ), (0:ℝ)), ((0:ℝ), (1:ℝ))⟩ none).angle_deg = 90 ∧
      (create_angle_dimension ⟨((0:ℝ), (0:ℝ)), ((1:ℝ), (0:ℝ))⟩
        ⟨((0:ℝ), (0:ℝ)), ((0:ℝ), (1:ℝ))⟩ none).label = "90.0°" := by
  have hd0 : point_dist (0 : ℝ × ℝ) (0 : ℝ × ℝ) = 0 := by
    simp [point_dist]
  have h90 : Real.pi / 2 * 180 / Real.pi = 90 := by
    field_simp
    ring
  have hfloor : ⌊(90:ℝ) / 360⌋ = 0 := by
    rw [Int.floor_eq_zero_iff]
    constructor <;> norm_num
  have hmod : pyMod 90 360 = 90 := by
    unfold pyMod
    rw [hfloor]
    norm_num
  have hfmt : pyFormat1f 90 = "90.0" := by
    have h900 : round ((90:ℝ) * 10) = 900 := by
      have h1 : ((90:ℝ) * 10) = ((900:ℤ) : ℝ) := by norm_num
      rw [h1, round_intCast]
    simp only [pyFormat1f]
    rw [h900]
    rfl
  have hcat : "90.0" ++ "°" = "90.0°" := rfl
  have hmain : create_angle_dimension ⟨((0:ℝ), (0:ℝ)), ((1:ℝ), (0:ℝ))⟩
      ⟨((0:ℝ), (0:ℝ)), ((0:ℝ), (1:ℝ))⟩ none = ⟨((0:ℝ), (0:ℝ)), 90, "90.0°"⟩ := by
    norm_num [create_angle_dimension, hd0, atan2_zero_one, atan2_one_zero,
      h90, hmod, hfmt, hcat]
  rw [hmain]
  exact ⟨rfl, rfl⟩

/-- C9 counterexample: a *filled* polygon on an unregistered layer is
emitted, but with `fill="black"` substituted for `fill="none"`, so the
claim that every such shape is emitted with `fill="none"` fails. -/
theorem unregistered_layer_filled_polygon_counterexample :
    emit_shape ⟨1, 1/2, [], [(SvgShape.polygon [(0,0),(1,0),(0,1)] 0 0 true none,
          "outline")], 20⟩
        (SvgShape.polygon [(0,0),(1,0),(0,1)] 0 0 true none, "outline")
      = some (SvgElement.path (SvgShape.polygon [(0,0),(1,0),(0,1)] 0 0 true none)
          ⟨StrokeColor.black, some (1/2), FillStyle.black, none⟩) ∧
    FillStyle.black ≠ FillStyle.nofill := by
  exact ⟨rfl, by decide⟩

/-- C9 (amended): a shape on a never-registered layer is never skipped
by serialization: a plain path shape (not text, not a filled polygon) is
emitted with the default style — `stroke="black"`, the exporter's line
weight, `fill="none"`, no dash; a filled polygon gets the same default
stroke but its fill replaced by the named pattern or black; a text shape
is emitted as a text element with the default (black) colour. Moreover a
shape is skipped exactly when its layer is registered with both fill and
stroke colours absent. -/
theorem unregistered_layer_emission (e : ExportSVG) (s : SvgShape)
    (ln : String) :
    (emit_shape e (s, ln) = none ↔
      ∃ l, List.lookup ln e.layers = some l ∧
        l.fill_color = none ∧ l.line_color = none) ∧
    (List.lookup ln e.layers = none →
      (plainPath s = true →
        emit_shape e (s, ln) = some (SvgElement.path s
          ⟨StrokeColor.black, some e.line_weight, FillStyle.nofill, none⟩)) ∧
      (∀ v x y fp, s = SvgShape.polygon v x y true fp →
        emit_shape e (s, ln) = some (SvgElement.path s
          ⟨StrokeColor.black, some e.line_weight,
            (match fp with
              | some pname =>
                if pname = "" then FillStyle.black
                else FillStyle.hatch pname
              | none => FillStyle.black), none⟩)) ∧
      (∀ t fs x y rot, s = SvgShape.text t fs x y rot →
        emit_shape e (s, ln) = some (SvgElement.textElem t fs none))) := by
  constructor
  · -- the skip criterion
    cases hl : List.lookup ln e.layers with
    | none =>
      constructor
      · intro hn
        exfalso
        cases s <;> simp [emit_shape, hl] at hn
      · rintro ⟨l, hl2, -, -⟩
        exact absurd hl2 (by simp)
    | some l =>
      cases hf : l.fill_color with
      | none =>
        cases hlc : l.line_color with
        | none =>
          constructor
          · intro _
            exact ⟨l, rfl, hf, hlc⟩
          · intro _
            cases s <;> simp [emit_shape, hl, hf, hlc]
        | some c =>
          constructor
          · intro hn
            exfalso
            cases s <;> simp [emit_shape, hl, hf, hlc] at hn
          · rintro ⟨l2, hl2, hf2, hlc2⟩
            injection hl2 with hle
            rw [← hle] at hlc2
            rw [hlc] at hlc2
            exact absurd hlc2 (by simp)
      | some cf =>
        constructor
        · intro hn
          exfalso
          cases s <;> simp [emit_shape, hl, hf] at hn
        · rintro ⟨l2, hl2, hf2, hlc2⟩
          injection hl2 with hle
          rw [← hle] at hf2
          rw [hf] at hf2
          exact absurd hf2 (by simp)
  · intro hnone
    refine ⟨?_, ?_, ?_⟩
    · intro hplain
      cases s with
      | text t fs x y rot => simp [plainPath] at hplain
      | polygon v x y filled fp =>
        cases filled with
        | true => simp [plainPath] at hplain
        | false => simp [emit_shape, get_stroke_style, hnone]
      | edge p1 p2 => simp [emit_shape, get_stroke_style, hnone]
      | arc c r sa ea => simp [emit_shape, get_stroke_style, hnone]
      | rectangle w h x y => simp [emit_shape, get_stroke_style, hnone]
      | spline pts ic => simp [emit_shape, get_stroke_style, hnone]
    · rintro v x y fp rfl
      cases fp with
      | none => simp [emit_shape, get_stroke_style, layerFill, hnone]
      | some pname =>
        by_cases hp : pname = ""
        · simp [emit_shape, get_stroke_style, layerFill, hnone, hp]
        · simp [emit_shape, get_stroke_style, layerFill, hnone, hp]
    · rintro t fs x y rot rfl
      simp [emit_shape, hnone]

/-- C9 witness: with an empty layer registry, an edge on the layer name
`"free"` is emitted with the default black-stroke style. -/
theorem unregistered_layer_emission_witness :
    List.lookup "free" (⟨1, 1/2, [], [], 20⟩ : ExportSVG).layers = none ∧
    plainPath (SvgShape.edge (0,0) (1,0)) = true ∧
    emit_shape ⟨1, 1/2, [], [], 20⟩ (SvgShape.edge (0,0) (1,0), "free")
      = some (SvgElement.path (SvgShape.edge (0,0) (1,0))
          ⟨StrokeColor.black, some (1/2), FillStyle.nofill, none⟩) :=
  ⟨rfl, rfl,
    ((unregistered_layer_emission ⟨1, 1/2, [], [], 20⟩
        (SvgShape.edge (0,0) (1,0)) "free").2 rfl).1 rfl⟩
